import Mathlib

/-!
Verification of `util/logtools/split_log.ts` — a tool that splits a combat-log
file into per-encounter / per-zone sub-files, optionally anonymizing and
filtering lines.

The repository source under verification is the driver `split_log.ts`; its
collaborators (`Splitter`, `Anonymizer`, `EncounterCollector`, the CLI
argument layer) live outside the provided sources and are modelled from the
specification, as marked in their doc comments.  JavaScript values are
embedded as follows: a `T | null | undefined` field becomes `Option T`
(`none` = absent; the spec treats the CLI layer as an external collaborator
that supplies each selector as present-or-absent, so the source's `!==
undefined`, `!== null` and `=== null` absence tests all embed as
`Option.isSome` / `Option.isNone`), `process.exit` on an error path becomes
`Except.error`, and the asynchronous readline/stream pipeline — which feeds
exactly one line at a time in file order — becomes a left fold over the list
of input lines.
-/

namespace SplitLog

/-- A fight (encounter) record as produced by the encounter collector and
consumed by `split_log.ts`: display name, optional boss-seal name (which takes
priority for matching), and the verbatim start/end boundary lines
(`endLine = none` when the fight was still open at end of file). -/
structure Fight where
  fightName : Option String
  sealName : Option String
  startLine : Option String
  endLine : Option String
  deriving Repr, DecidableEq

/-- A zone record: display name plus verbatim start/end boundary lines. -/
structure Zone where
  zoneName : Option String
  startLine : Option String
  endLine : Option String
  deriving Repr, DecidableEq

/-- The parsed command-line arguments of `split_log.ts` (`SplitLogArgs`).
Modelled from the spec: the CLI argument layer (`arg_parser.ts`, outside the
provided sources) supplies each option as present-or-absent; `none` stands for
an absent option (JS `null`/`undefined`). -/
structure Args where
  file : Option String
  force : Option Bool
  search_fights : Option Int
  search_zones : Option Int
  fight_regex : Option String
  zone_regex : Option String
  no_anonymize : Option Bool
  analysis_filter : Option Bool
  deriving Repr, DecidableEq

/-- The line classifier, abstracted to its two predicates used by the
splitter.  Modelled from the spec: the classifier (outside the provided
sources) is a pure, deterministic function of the raw line. -/
structure Classifier where
  isGlobal : String → Bool
  isInteresting : String → Bool

/-- The anonymization engine, abstracted to its state type and per-line
step.  Modelled from the spec: `Anonymizer.process` (outside the provided
sources) rewrites one line, returning `none` to signal "drop this line" and
`some rewritten` otherwise, threading the pseudonym-mapping state. -/
structure AnonOps (σ : Type) where
  init : σ
  process : σ → String → Option String × σ

/-- Splitter states.  Modelled from the spec: states =
BEFORE_RANGE, IN_RANGE, DONE. -/
inductive SplitterState where
  | beforeRange
  | inRange
  | done
  deriving Repr, DecidableEq

/-- The splitter configuration and state.  Modelled from the spec:
constructed with a verbatim start-line marker, an optional end-line marker
(`none` meaning "until EOF"), and the includeGlobals / analysisFilter flags. -/
structure Splitter where
  startLine : String
  endLine : Option String
  includeGlobals : Bool
  analysisFilter : Bool
  state : SplitterState
  deriving Repr, DecidableEq

/-- Whether a line inside the range is emitted.  Modelled from the spec:
global lines are always emitted when includeGlobals is set; with
analysisFilter only "interesting" lines (plus globals) pass; otherwise every
line in range is emitted. -/
def Splitter.shouldEmit (c : Classifier) (sp : Splitter) (line : String) : Bool :=
  if sp.includeGlobals && c.isGlobal line then
    true
  else if sp.analysisFilter then
    c.isInteresting line
  else
    true

/-- Feed one line to the splitter, returning the emitted line (if any) and
the updated splitter.  Modelled from the spec: BEFORE_RANGE → IN_RANGE on the
exact start marker, IN_RANGE → DONE on the exact end marker (the boundary
lines themselves are in range, i.e. the range is inclusive), and feeding
lines after DONE is a no-op. -/
def Splitter.process (c : Classifier) (sp : Splitter) (line : String) :
    Option String × Splitter :=
  match sp.state with
  | .done => (none, sp)
  | .beforeRange =>
    if line = sp.startLine then
      let emitted := if sp.shouldEmit c line then some line else none
      if sp.endLine = some line then
        (emitted, { sp with state := .done })
      else
        (emitted, { sp with state := .inRange })
    else
      (none, sp)
  | .inRange =>
    let emitted := if sp.shouldEmit c line then some line else none
    if sp.endLine = some line then
      (emitted, { sp with state := .done })
    else
      (emitted, sp)

/-- The `isDone` query of the splitter. -/
def Splitter.isDone (sp : Splitter) : Bool :=
  sp.state = .done

/-- Observable events of one `writeFile` run, in order: a line written to the
output stream, the `writer.end()` call, the whole-mapping `validateIds` scan,
and one `validateLine` scan per written line. -/
inductive Event where
  | write (line : String)
  | writerEnd
  | validateIds
  | validateLine (line : String)
  | writerClose
  deriving Repr, DecidableEq

/-- The mutable state threaded through the `'line'` handler of `writeFile`:
the splitter, the anonymizer state, the buffered `lines` array (kept for the
post-pass `validateLine` scan), and the event trace so far. -/
structure WFState (σ : Type) where
  splitter : Splitter
  anon : σ
  lines : List String
  events : List Event

/-- One `'line'` event of the reader in `writeFile`
(src/buffs/cactbot/util/logtools/split_log.ts lines 116-128): the splitter
decides whether the line is emitted; on emission, with anonymization enabled
the anonymizer rewrites it (returning undefined drops the line entirely),
and the resulting line is buffered and written followed by a newline. -/
def processLine (c : Classifier) {σ : Type} (A : AnonOps σ) (noAnonymize : Bool)
    (st : WFState σ) (line : String) : WFState σ :=
  match Splitter.process c st.splitter line with
  | (none, sp) => { st with splitter := sp }
  | (some emitted, sp) =>
    if noAnonymize then
      { st with
          splitter := sp
          lines := st.lines ++ [emitted]
          events := st.events ++ [.write emitted] }
    else
      match A.process st.anon emitted with
      | (none, a) => { st with splitter := sp, anon := a }
      | (some writeLine, a) =>
        { splitter := sp
          anon := a
          lines := st.lines ++ [writeLine]
          events := st.events ++ [.write writeLine] }

/-- The reader loop of `writeFile`: lines arrive one at a time in file order;
after each line, `if (splitter.isDone()) lineReader.close()` stops the feed. -/
def runLines (c : Classifier) {σ : Type} (A : AnonOps σ) (noAnonymize : Bool)
    (st : WFState σ) : List String → WFState σ
  | [] => st
  | line :: rest =>
    let st' := processLine c A noAnonymize st line
    if st'.splitter.isDone then st' else runLines c A noAnonymize st' rest

/-- The `'close'` handler of `writeFile`
(src/buffs/cactbot/util/logtools/split_log.ts lines 134-145): end the writer;
with anonymization enabled, run `validateIds` once and then `validateLine`
over every buffered written line, in order; finally close the writer. -/
def closeHandler {σ : Type} (noAnonymize : Bool) (st : WFState σ) : List Event :=
  st.events ++ [.writerEnd] ++
    (if noAnonymize then [] else .validateIds :: st.lines.map .validateLine) ++
    [.writerClose]

/-- The splitter as constructed by `writeFile`
(src/buffs/cactbot/util/logtools/split_log.ts lines 110-112):
`includeGlobals` is the literal `true`, `analysisFilter` is
`args.analysis_filter ?? false`. -/
def writeFileSplitter (a : Args) (startLine : String) (endLine : Option String) :
    Splitter :=
  { startLine := startLine
    endLine := endLine
    includeGlobals := true
    analysisFilter := a.analysis_filter.getD false
    state := .beforeRange }

/-- The final pipeline state of one successful `writeFile` run over a record
with boundary lines `s`/`e`: the reader replays the whole input file from its
first line through a freshly constructed splitter and anonymizer
(`anon := A.init`, empty buffer, empty trace). -/
def splitRecord (c : Classifier) {σ : Type} (A : AnonOps σ) (a : Args)
    (input : List String) (s e : String) : WFState σ :=
  runLines c A (a.no_anonymize.getD false)
    { splitter := writeFileSplitter a s (some e)
      anon := A.init
      lines := []
      events := [] } input

/-- The event trace of one successful `writeFile` run: replay all lines, then
fire the close handler. -/
def splitEvents (c : Classifier) {σ : Type} (A : AnonOps σ) (a : Args)
    (input : List String) (s e : String) : List Event :=
  closeHandler (a.no_anonymize.getD false) (splitRecord c A a input s e)

/-- The function `writeFile`
(src/buffs/cactbot/util/logtools/split_log.ts lines 80-147): fails fast
(`process.exit(-4)`) when `startLine` or `endLine` is undefined; otherwise
constructs a fresh notifier, anonymizer, reader over the whole input file,
writer and splitter, replays every input line, and fires the close handler.
The result is the ordered event trace of the run. -/
def writeFile (c : Classifier) {σ : Type} (A : AnonOps σ) (a : Args)
    (input : List String) (startLine endLine : Option String) :
    Except String (List Event) :=
  match startLine with
  | none => .error "Error: missing startLine"
  | some s =>
    match endLine with
    | none => .error "Error: missing endLine"
    | some e => .ok (splitEvents c A a input s e)

/-- Fight selection in the `fight_regex` branch
(src/buffs/cactbot/util/logtools/split_log.ts lines 197-203): when `sealName`
is defined the regex is matched against it alone; otherwise the fight is kept
iff `fightName` is defined and matches (`fight.fightName?.match(regex)`).
The compiled case-insensitive regex is abstracted as a match predicate. -/
def fightSelected (m : String → Bool) (f : Fight) : Bool :=
  match f.sealName with
  | some s => m s
  | none =>
    match f.fightName with
    | some n => m n
    | none => false

/-- Zone selection in the `zone_regex` branch
(src/buffs/cactbot/util/logtools/split_log.ts lines 210-211):
`zone.zoneName?.match(regex)`. -/
def zoneSelected (m : String → Bool) (z : Zone) : Bool :=
  match z.zoneName with
  | some n => m n
  | none => false

/-- Outcome of a regex-selector loop.  The promise returned by `writeFile`
(src/buffs/cactbot/util/logtools/split_log.ts line 93) is never resolved:
the close handler (lines 134-145) ends the writer, runs the validations and
closes, but never calls `resolve`, and `reject` (line 106) is followed by
`process.exit`.  Hence the `await writeFile(...)` inside the loops (lines
204 and 212) never completes: once the first selected record's file has been
written — its stream events all fire — the loop suspends forever and no
later record is processed. -/
inductive RegexRunOutcome where
  | noMatches
  | suspended (file : List Event)
  | exited (msg : String)
  deriving Repr, DecidableEq

/-- The `fight_regex` loop (src/buffs/cactbot/util/logtools/split_log.ts
lines 197-205): scan the collected fights in order for the first selected
one.  Its `writeFile` either exits on a missing boundary line
(process.exit(-4)) or writes that one file completely, after which the
never-resolving `await` suspends the run; fights after the first selected
one are never processed.  With no fight selected the loop completes and
falls through to `process.exit(exitCode)`. -/
def fightRegexLoop (c : Classifier) {σ : Type} (A : AnonOps σ) (a : Args)
    (input : List String) (m : String → Bool) : List Fight → RegexRunOutcome
  | [] => .noMatches
  | f :: fs =>
    if fightSelected m f then
      match writeFile c A a input f.startLine f.endLine with
      | .error e => .exited e
      | .ok evs => .suspended evs
    else
      fightRegexLoop c A a input m fs

/-- The `zone_regex` loop (src/buffs/cactbot/util/logtools/split_log.ts
lines 209-213), suspending at the never-resolving `await` exactly like the
fight loop. -/
def zoneRegexLoop (c : Classifier) {σ : Type} (A : AnonOps σ) (a : Args)
    (input : List String) (m : String → Bool) : List Zone → RegexRunOutcome
  | [] => .noMatches
  | z :: zs =>
    if zoneSelected m z then
      match writeFile c A a input z.startLine z.endLine with
      | .error e => .exited e
      | .ok evs => .suspended evs
    else
      zoneRegexLoop c A a input m zs

/-- The exclusive-selector count
(src/buffs/cactbot/util/logtools/split_log.ts lines 57-67): the number of the
four selector options that are present. -/
def numExclusiveArgs (a : Args) : Nat :=
  (if a.search_fights.isSome then 1 else 0) +
    (if a.search_zones.isSome then 1 else 0) +
    (if a.fight_regex.isSome then 1 else 0) +
    (if a.zone_regex.isSome then 1 else 0)

/-- JavaScript truthiness of an optional integer argument, as tested by
`if (args['search_fights'])`: absent (null/undefined) and `0` are falsy. -/
def truthyInt : Option Int → Bool
  | some n => n != 0
  | none => false

/-- JavaScript array indexing `arr[i]` with a possibly negative integer
index: out-of-range and negative indices yield undefined. -/
def jsIndex {α : Type} (l : List α) (i : Int) : Option α :=
  if i < 0 then none else l.get? i.toNat

/-- Outcome of one run of the tool, as observable from the driver:
usage errors and the `-f` check (printHelpAndError + process.exit before any
file is opened), the `-1` listing modes, the missing fight/zone diagnostics,
the final `'Internal error'` branch, a fatal `writeFile` failure, the event
traces of the output files written, or — in the regex branches — the first
selected record's file written followed by the run suspending forever at the
never-resolving `await`. -/
inductive RunResult where
  | usageError (msg : String)
  | printedFights
  | printedZones
  | missingFight (n : Int)
  | missingZone (n : Int)
  | internalError
  | writeError (msg : String)
  | wrote (files : List (List Event))
  | wroteFirstThenHung (file : List Event)
  deriving Repr, DecidableEq

/-- Lift one `writeFile` result into a `RunResult` (the index branches:
a failure is `process.exit`, success writes the file completely; the await
that follows never resolves, which only affects the exit path). -/
def writeOneResult : Except String (List Event) → RunResult
  | .error e => .writeError e
  | .ok evs => .wrote [evs]

/-- Lift a regex-loop outcome into a `RunResult`: no selected record means
the loop completes with no files and `process.exit(exitCode)` is reached; a
written first file leaves the run suspended; a `writeFile` guard failure
exits the process. -/
def regexBranchResult : RegexRunOutcome → RunResult
  | .noMatches => .wrote []
  | .suspended evs => .wroteFirstThenHung evs
  | .exited e => .writeError e

/-- The selector dispatch of the main function
(src/buffs/cactbot/util/logtools/split_log.ts lines 165-218), taking the
collector's discovered fights and zones: the `=== -1` listing modes, the
truthy index branches (1-indexed: `collector.fights[args['search_fights'] - 1]`,
undefined → missing-fight/zone error), the `fight_regex` branch, the
`zone_regex` branch, and the final `'Internal error'` fallback. -/
def dispatch (c : Classifier) {σ : Type} (A : AnonOps σ)
    (reOf : String → String → Bool) (a : Args)
    (fights : List Fight) (zones : List Zone) (input : List String) : RunResult :=
  if a.search_fights = some (-1) then
    .printedFights
  else if a.search_zones = some (-1) then
    .printedZones
  else if truthyInt a.search_fights then
    let n := (a.search_fights.getD 0)
    match jsIndex fights (n - 1) with
    | none => .missingFight n
    | some f => writeOneResult (writeFile c A a input f.startLine f.endLine)
  else if truthyInt a.search_zones then
    let n := (a.search_zones.getD 0)
    match jsIndex zones (n - 1) with
    | none => .missingZone n
    | some z => writeOneResult (writeFile c A a input z.startLine z.endLine)
  else
    match a.fight_regex with
    | some pat => regexBranchResult (fightRegexLoop c A a input (reOf pat) fights)
    | none =>
      match a.zone_regex with
      | some pat => regexBranchResult (zoneRegexLoop c A a input (reOf pat) zones)
      | none => .internalError

/-- The whole run of `split_log.ts`: the `-f` check and the
exactly-one-selector check happen before the collector prepass opens the log
file; only then is the file read (`collect` abstracts the
`EncounterCollector` prepass, which lives outside the provided sources) and
the selector dispatched. -/
def runMain (c : Classifier) {σ : Type} (A : AnonOps σ)
    (reOf : String → String → Bool)
    (collect : List String → List Fight × List Zone)
    (a : Args) (input : List String) : RunResult :=
  if a.file.isNone then
    .usageError "Error: Must specify -f"
  else if numExclusiveArgs a ≠ 1 then
    .usageError "Error: Must specify exactly one of -lf, -lz, or -fr"
  else
    let collected := collect input
    dispatch c A reOf a collected.1 collected.2 input

/-- The write-stream flags chosen by `writeFile`
(src/buffs/cactbot/util/logtools/split_log.ts line 102):
`args.force === null ? 'wx' : 'w'`. -/
def writeFlags (force : Option Bool) : String :=
  if force.isNone then "wx" else "w"

/-- Modelled from the spec: Node `fs.createWriteStream` open semantics for
the two flag strings used by `writeFile` — mode `'wx'` fails when the
destination already exists, mode `'w'` truncates/overwrites it.  A failure
reaches the `writer.on('error')` handler, which is fatal
(src/buffs/cactbot/util/logtools/split_log.ts lines 104-108). -/
def fsOpenWrite (flags : String) (destExists : Bool) : Except String Unit :=
  if (flags == "wx") && destExists then
    .error "EEXIST: file already exists"
  else
    .ok ()

/-- A concrete classifier for witness evaluation: no line is global, every
line is interesting. -/
def plainClassifier : Classifier :=
  { isGlobal := fun _ => false, isInteresting := fun _ => true }

/-- A concrete anonymizer for witness evaluation: stateless identity. -/
def idAnon : AnonOps Unit :=
  { init := (), process := fun s line => (some line, s) }

/-- A concrete anonymizer for witness evaluation that drops the line
`"secret"` and rewrites every other line. -/
def dropAnon : AnonOps Unit :=
  { init := ()
    process := fun s line =>
      (if line = "secret" then none else some ("anon " ++ line), s) }

/-- A concrete regex compiler for witness evaluation: exact equality. -/
def eqMatch : String → String → Bool :=
  fun pat s => pat = s

/-- A concrete fight for witness evaluation. -/
def exampleFight : Fight :=
  ⟨some "boss", none, some "S", some "E"⟩

/-- A concrete collector for witness evaluation: one fight with boundary
lines `"S"`/`"E"`, no zones. -/
def collectOne : List String → List Fight × List Zone :=
  fun _ => ([exampleFight], [])

/-- Concrete arguments for witness evaluation: fight-regex selector. -/
def argsFightRegex : Args :=
  ⟨some "f.log", none, none, none, some "boss", none, none, none⟩

/-- Concrete arguments for witness evaluation: fight-index selector. -/
def argsFightIdx (n : Int) : Args :=
  ⟨some "f.log", none, some n, none, none, none, none, none⟩

/-- Concrete arguments for witness evaluation: zone-index selector. -/
def argsZoneIdx (n : Int) : Args :=
  ⟨some "f.log", none, none, some n, none, none, none, none⟩

/-- C1 (counterexample): a fight record still open at end of file
(`endLine = undefined`) does not have its lines written out — `writeFile`
aborts with `Error: missing endLine` (process.exit(-4)) on this concrete
input, before constructing any Splitter. -/
theorem c1_open_range_counterexample :
    writeFile plainClassifier idAnon argsFightRegex ["S", "mid", "tail"]
        (some "S") none =
      .error "Error: missing endLine" := rfl

/-- C1 (amended): for every record whose `startLine` or `endLine` is
undefined, `writeFile` fails fast — it reports the corresponding
`Error: missing startLine` / `Error: missing endLine` diagnostic and exits
before constructing a Splitter or writing any line; in particular no Splitter
is ever constructed with `endLine = undefined` by this tool. -/
theorem c1_missing_boundary_fails_fast (c : Classifier) {σ : Type} (A : AnonOps σ)
    (a : Args) (input : List String) :
    (∀ s : String,
      writeFile c A a input (some s) none = .error "Error: missing endLine") ∧
    (∀ e : Option String,
      writeFile c A a input none e = .error "Error: missing startLine") :=
  ⟨fun _ => rfl, fun _ => rfl⟩

/-- C2: in the fight-regex branch, a defined `sealName` is the only string
matched — the selection result equals the match on `sealName` whatever
`fightName` holds — and with `sealName` undefined the fight is selected iff
`fightName` is defined and matches. -/
theorem c2_sealname_priority (m : String → Bool) (f : Fight) :
    (∀ s, f.sealName = some s →
      fightSelected m f = m s ∧
        ∀ g, fightSelected m { f with fightName := g } = m s) ∧
    (f.sealName = none →
      fightSelected m f = (f.fightName.map m).getD false) := by
  constructor
  · intro s hs
    exact ⟨by simp [fightSelected, hs], fun g => by simp [fightSelected, hs]⟩
  · intro hs
    cases hn : f.fightName <;> simp [fightSelected, hs, hn]

/-- Witness for C2 at a concrete fight whose `sealName` and `fightName` both
exist: the seal name, not the fight name, decides the match. -/
theorem c2_sealname_priority_witness :
    Fight.sealName ⟨some "alpha", some "door", some "S", some "E"⟩ = some "door" ∧
    fightSelected (eqMatch "door") ⟨some "alpha", some "door", some "S", some "E"⟩ =
      eqMatch "door" "door" :=
  ⟨rfl,
    ((c2_sealname_priority (eqMatch "door")
          ⟨some "alpha", some "door", some "S", some "E"⟩).1 "door" rfl).1⟩

/-- C8: with the overwrite flag absent the writer is opened with flags `wx`,
a mode that fails when the destination exists (the failure reaches the fatal
`writer.on('error')` handler); with the flag supplied, flags `w` overwrite an
existing destination. -/
theorem c8_overwrite_flag (force : Option Bool) (destExists : Bool) :
    (force = none →
      writeFlags force = "wx" ∧
        fsOpenWrite (writeFlags force) destExists =
          (if destExists then .error "EEXIST: file already exists" else .ok ())) ∧
    (∀ b, force = some b →
      writeFlags force = "w" ∧
        fsOpenWrite (writeFlags force) destExists = .ok ()) := by
  constructor
  · intro h
    subst h
    refine ⟨rfl, ?_⟩
    cases destExists <;> simp [fsOpenWrite, writeFlags]
  · intro b h
    subst h
    exact ⟨rfl, by simp [fsOpenWrite, writeFlags]⟩

/-- Witness for C8 with an existing destination: no `--force` means the open
fails, `--force` means it succeeds. -/
theorem c8_overwrite_flag_witness :
    (writeFlags none = "wx" ∧
      fsOpenWrite (writeFlags none) true =
        (if true then .error "EEXIST: file already exists" else .ok ())) ∧
    (writeFlags (some true) = "w" ∧
      fsOpenWrite (writeFlags (some true)) true = .ok ()) :=
  ⟨(c8_overwrite_flag none true).1 rfl, (c8_overwrite_flag (some true) true).2 true rfl⟩

/-- C10: the splitter constructed by `writeFile` always has
`includeGlobals = true` — whatever the command-line arguments — so a global
line inside the range is always emitted. -/
theorem c10_include_globals_hardwired (a : Args) (s line : String)
    (e : Option String) (c : Classifier) (hg : c.isGlobal line = true) :
    (writeFileSplitter a s e).includeGlobals = true ∧
    (Splitter.process c
        { writeFileSplitter a s e with state := .inRange } line).1 = some line := by
  refine ⟨rfl, ?_⟩
  unfold Splitter.process
  simp only [writeFileSplitter]
  split <;> simp [Splitter.shouldEmit, hg]

/-- Witness for C10: even with the analysis filter enabled and a classifier
that finds no line interesting, a global line in range is emitted. -/
theorem c10_include_globals_hardwired_witness :
    Classifier.isGlobal ⟨fun _ => true, fun _ => false⟩ "g" = true ∧
    (Splitter.process ⟨fun _ => true, fun _ => false⟩
        { writeFileSplitter ⟨some "f.log", none, none, none, some "x", none, none, some true⟩
            "S" (some "E") with
          state := .inRange } "g").1 = some "g" :=
  ⟨rfl,
    (c10_include_globals_hardwired
        ⟨some "f.log", none, none, none, some "x", none, none, some true⟩
        "S" "g" (some "E") ⟨fun _ => true, fun _ => false⟩ rfl).2⟩

/-- One reader step preserves the invariant that the event trace so far is
exactly one `write` event per buffered line, in order. -/
theorem processLine_trace (c : Classifier) {σ : Type} (A : AnonOps σ) (na : Bool)
    (st : WFState σ) (line : String)
    (h : st.events = st.lines.map Event.write) :
    (processLine c A na st line).events =
      (processLine c A na st line).lines.map Event.write := by
  unfold processLine
  rcases hp : Splitter.process c st.splitter line with ⟨emitted, sp⟩
  cases emitted with
  | none => simpa using h
  | some l =>
    cases na with
    | true => simp [h]
    | false =>
      rcases hA : A.process st.anon l with ⟨w, a⟩
      cases w <;> simp [hA, h]

/-- The whole reader loop preserves the trace invariant. -/
theorem runLines_trace (c : Classifier) {σ : Type} (A : AnonOps σ) (na : Bool)
    (input : List String) :
    ∀ st : WFState σ, st.events = st.lines.map Event.write →
      (runLines c A na st input).events =
        (runLines c A na st input).lines.map Event.write := by
  induction input with
  | nil => intro st h; exact h
  | cons line rest ih =>
    intro st h
    rw [runLines]
    cases hd : (processLine c A na st line).splitter.isDone with
    | true => simpa [hd] using processLine_trace c A na st line h
    | false => simpa [hd] using ih _ (processLine_trace c A na st line h)

/-- C7: the event trace of every `writeFile` run is the written lines (in
order), then `writer.end`, then — exactly when anonymization is enabled — a
single `validateIds` followed by one `validateLine` per written line in the
order they were written, then `writer.close`; with anonymization disabled
neither validation appears. -/
theorem c7_validation_order (c : Classifier) {σ : Type} (A : AnonOps σ) (a : Args)
    (input : List String) (s e : String) :
    ∃ written : List String,
      writeFile c A a input (some s) (some e) =
        .ok (written.map Event.write ++ [Event.writerEnd] ++
          (if a.no_anonymize.getD false then []
            else Event.validateIds :: written.map Event.validateLine) ++
          [Event.writerClose]) := by
  refine ⟨(splitRecord c A a input s e).lines, ?_⟩
  have h : (splitRecord c A a input s e).events =
      (splitRecord c A a input s e).lines.map Event.write :=
    runLines_trace c A (a.no_anonymize.getD false) input _ rfl
  simp [writeFile, splitEvents, closeHandler, h]

/-- C6: inside the reader's line handler, with anonymization enabled a line
the splitter emits is dropped entirely (not written, not added to the buffer
later scanned by `validateLine`) when `Anonymizer.process` returns undefined,
and otherwise the anonymizer's returned string — not the original — is
buffered and written; with anonymization disabled the emitted line is written
verbatim. -/
theorem c6_anonymizer_drop (c : Classifier) {σ : Type} (A : AnonOps σ)
    (st : WFState σ) (line emitted : String) (sp : Splitter)
    (hemit : Splitter.process c st.splitter line = (some emitted, sp)) :
    (∀ a', A.process st.anon emitted = (none, a') →
      processLine c A false st line = { st with splitter := sp, anon := a' }) ∧
    (∀ w a', A.process st.anon emitted = (some w, a') →
      processLine c A false st line =
        { splitter := sp, anon := a', lines := st.lines ++ [w],
          events := st.events ++ [Event.write w] }) ∧
    processLine c A true st line =
      { st with
          splitter := sp
          lines := st.lines ++ [emitted]
          events := st.events ++ [Event.write emitted] } := by
  refine ⟨?_, ?_, ?_⟩
  · intro a' hA
    simp [processLine, hemit, hA]
  · intro w a' hA
    simp [processLine, hemit, hA]
  · simp [processLine, hemit]

/-- Witness for C6: with the concrete dropping anonymizer, the line
`"secret"` emitted by an in-range splitter leaves the state unchanged apart
from the splitter, while `"hello"` is written as its rewritten form. -/
theorem c6_anonymizer_drop_witness :
    Splitter.process plainClassifier ⟨"S", some "E", true, false, .inRange⟩ "secret" =
      (some "secret", ⟨"S", some "E", true, false, .inRange⟩) ∧
    processLine plainClassifier dropAnon false
        ⟨⟨"S", some "E", true, false, .inRange⟩, (), ["prev"], [Event.write "prev"]⟩
        "secret" =
      ⟨⟨"S", some "E", true, false, .inRange⟩, (), ["prev"], [Event.write "prev"]⟩ ∧
    processLine plainClassifier dropAnon false
        ⟨⟨"S", some "E", true, false, .inRange⟩, (), [], []⟩ "hello" =
      ⟨⟨"S", some "E", true, false, .inRange⟩, (), ["anon hello"],
        [Event.write "anon hello"]⟩ :=
  ⟨by decide,
    (c6_anonymizer_drop plainClassifier dropAnon
        ⟨⟨"S", some "E", true, false, .inRange⟩, (), ["prev"], [Event.write "prev"]⟩
        "secret" "secret" ⟨"S", some "E", true, false, .inRange⟩ (by decide)).1
      () (by decide),
    (c6_anonymizer_drop plainClassifier dropAnon
        ⟨⟨"S", some "E", true, false, .inRange⟩, (), [], []⟩
        "hello" "hello" ⟨"S", some "E", true, false, .inRange⟩ (by decide)).2.1
      "anon hello" () (by decide)⟩

/-- C3 (code bug): on a log holding two fights that the regex both selects,
the run writes only the first fight's file — computed from a fresh
anonymizer, fresh splitter and the full input — and then suspends forever at
the never-resolving `await`; the second matched record's file is never
produced, against the spec's sequential one-file-per-match production. -/
theorem c3_first_match_only :
    fightSelected (fun _ => true) ⟨some "boss1", none, some "S1", some "E1"⟩ = true ∧
    fightSelected (fun _ => true) ⟨some "boss2", none, some "S2", some "E2"⟩ = true ∧
    fightRegexLoop plainClassifier idAnon argsFightRegex ["S1", "E1", "S2", "E2"]
        (fun _ => true)
        [⟨some "boss1", none, some "S1", some "E1"⟩,
          ⟨some "boss2", none, some "S2", some "E2"⟩] =
      .suspended (splitEvents plainClassifier idAnon argsFightRegex
        ["S1", "E1", "S2", "E2"] "S1" "E1") ∧
    zoneRegexLoop plainClassifier idAnon argsFightRegex ["S1", "E1", "S2", "E2"]
        (fun _ => true)
        [⟨some "town", some "S1", some "E1"⟩, ⟨some "field", some "S2", some "E2"⟩] =
      .suspended (splitEvents plainClassifier idAnon argsFightRegex
        ["S1", "E1", "S2", "E2"] "S1" "E1") :=
  ⟨rfl, rfl, rfl, rfl⟩

/-- A single-record write never produces a usage error. -/
theorem writeOneResult_ne_usageError (r : Except String (List Event)) (msg : String) :
    writeOneResult r ≠ .usageError msg := by
  cases r <;> simp [writeOneResult]

/-- A regex-branch outcome never produces a usage error. -/
theorem regexBranchResult_ne_usageError (r : RegexRunOutcome) (msg : String) :
    regexBranchResult r ≠ .usageError msg := by
  cases r <;> simp [regexBranchResult]

/-- The selector dispatch never produces a usage error: usage checking is
finished before it runs. -/
theorem dispatch_ne_usageError (c : Classifier) {σ : Type} (A : AnonOps σ)
    (reOf : String → String → Bool) (a : Args) (fights : List Fight)
    (zones : List Zone) (input : List String) (msg : String) :
    dispatch c A reOf a fights zones input ≠ .usageError msg := by
  unfold dispatch
  intro hcontra
  repeat' split at hcontra
  all_goals try simp at hcontra
  all_goals try exact regexBranchResult_ne_usageError _ _ hcontra
  all_goals revert hcontra
  all_goals
    cases jsIndex fights (a.search_fights.getD 0 - 1) <;>
      cases jsIndex zones (a.search_zones.getD 0 - 1) <;>
      (intro hcontra;
        first
          | exact writeOneResult_ne_usageError _ _ hcontra
          | simp at hcontra)

/-- C4: with the input file given, a selector count other than one makes the
run stop at the usage error — the result is the same for every input file
content and every collector, so no log file is consulted — while a count of
exactly one never produces a usage error, so processing proceeds. -/
theorem c4_exactly_one_selector (c : Classifier) {σ : Type} (A : AnonOps σ)
    (reOf : String → String → Bool) (a : Args) (hfile : a.file.isSome = true) :
    (numExclusiveArgs a ≠ 1 →
      ∀ (collect : List String → List Fight × List Zone) (input : List String),
        runMain c A reOf collect a input =
          .usageError "Error: Must specify exactly one of -lf, -lz, or -fr") ∧
    (numExclusiveArgs a = 1 →
      ∀ (collect : List String → List Fight × List Zone) (input : List String)
        (msg : String),
        runMain c A reOf collect a input ≠ .usageError msg) := by
  have hn : a.file.isNone = false := by
    cases hf : a.file with
    | none => rw [hf] at hfile; simp at hfile
    | some v => rfl
  constructor
  · intro hne collect input
    simp [runMain, hn, hne]
  · intro h1 collect input msg
    simp only [runMain, hn, h1, Bool.false_eq_true, if_false, ne_eq,
      not_true_eq_false, not_false_eq_true, if_true]
    exact dispatch_ne_usageError c A reOf a _ _ input msg

/-- Witness for C4: two selectors present is rejected with the usage error
on a concrete run; a zone-regex-only selection is not. -/
theorem c4_exactly_one_selector_witness :
    numExclusiveArgs ⟨some "f.log", none, some 1, none, some "boss", none, none, none⟩ ≠ 1 ∧
    runMain plainClassifier idAnon eqMatch collectOne
        ⟨some "f.log", none, some 1, none, some "boss", none, none, none⟩ ["S", "E"] =
      .usageError "Error: Must specify exactly one of -lf, -lz, or -fr" :=
  ⟨by decide,
    (c4_exactly_one_selector plainClassifier idAnon eqMatch
        ⟨some "f.log", none, some 1, none, some "boss", none, none, none⟩ rfl).1
      (by decide) collectOne ["S", "E"]⟩

/-- C5: a positive fight (resp. zone) index selector `n` writes exactly the
`n`-th discovered record — the caller-facing index 1 is internal index 0,
i.e. the record found at `List.get? (n-1)` — and when `n` exceeds the number
of discovered records the run reports the missing-fight (missing-zone)
diagnostic instead of writing an output file. -/
theorem c5_one_indexed_selection (c : Classifier) {σ : Type} (A : AnonOps σ)
    (reOf : String → String → Bool)
    (collect : List String → List Fight × List Zone)
    (a : Args) (input : List String) (n : Int)
    (hn : 0 < n) (hfile : a.file.isSome = true) :
    ((a.search_fights = some n ∧ a.search_zones = none ∧
        a.fight_regex = none ∧ a.zone_regex = none) →
      (∀ f, (collect input).1.get? (n - 1).toNat = some f →
        runMain c A reOf collect a input =
          writeOneResult (writeFile c A a input f.startLine f.endLine)) ∧
      (((collect input).1.length : Int) < n →
        runMain c A reOf collect a input = .missingFight n)) ∧
    ((a.search_fights = none ∧ a.search_zones = some n ∧
        a.fight_regex = none ∧ a.zone_regex = none) →
      (∀ z, (collect input).2.get? (n - 1).toNat = some z →
        runMain c A reOf collect a input =
          writeOneResult (writeFile c A a input z.startLine z.endLine)) ∧
      (((collect input).2.length : Int) < n →
        runMain c A reOf collect a input = .missingZone n)) := by
  have hnf : a.file.isNone = false := by
    cases hf : a.file with
    | none => rw [hf] at hfile; simp at hfile
    | some v => rfl
  have hne : n ≠ -1 := by omega
  have hnz : n ≠ 0 := by omega
  have hnonneg : ¬n - 1 < 0 := by omega
  constructor
  · rintro ⟨h1, h2, h3, h4⟩
    have hcount : numExclusiveArgs a = 1 := by
      simp [numExclusiveArgs, h1, h2, h3, h4]
    constructor
    · intro f hf
      have hj : jsIndex (collect input).1 (n - 1) = some f := by
        simpa [jsIndex, hnonneg] using hf
      simp [runMain, hnf, hcount, dispatch, h1, h2, hne, truthyInt, bne_iff_ne,
        hnz, hj]
    · intro hlen
      have hj : jsIndex (collect input).1 (n - 1) = none := by
        have hnone : (collect input).1.get? (n - 1).toNat = none :=
          List.get?_eq_none.mpr (by omega)
        simpa [jsIndex, hnonneg] using hnone
      simp [runMain, hnf, hcount, dispatch, h1, h2, hne, truthyInt, bne_iff_ne,
        hnz, hj]
  · rintro ⟨h1, h2, h3, h4⟩
    have hcount : numExclusiveArgs a = 1 := by
      simp [numExclusiveArgs, h1, h2, h3, h4]
    constructor
    · intro z hz
      have hj : jsIndex (collect input).2 (n - 1) = some z := by
        simpa [jsIndex, hnonneg] using hz
      simp [runMain, hnf, hcount, dispatch, h1, h2, hne, truthyInt, bne_iff_ne,
        hnz, hj]
    · intro hlen
      have hj : jsIndex (collect input).2 (n - 1) = none := by
        have hnone : (collect input).2.get? (n - 1).toNat = none :=
          List.get?_eq_none.mpr (by omega)
        simpa [jsIndex, hnonneg] using hnone
      simp [runMain, hnf, hcount, dispatch, h1, h2, hne, truthyInt, bne_iff_ne,
        hnz, hj]

/-- Witness for C5 at a one-fight log: index 1 selects the first (and only)
discovered fight, index 2 reports the missing-fight error. -/
theorem c5_one_indexed_selection_witness :
    runMain plainClassifier idAnon eqMatch collectOne (argsFightIdx 1) ["S", "x", "E"] =
      writeOneResult (writeFile plainClassifier idAnon (argsFightIdx 1)
        ["S", "x", "E"] exampleFight.startLine exampleFight.endLine) ∧
    runMain plainClassifier idAnon eqMatch collectOne (argsFightIdx 2) ["S", "x", "E"] =
      .missingFight 2 :=
  ⟨((c5_one_indexed_selection plainClassifier idAnon eqMatch collectOne
        (argsFightIdx 1) ["S", "x", "E"] 1 (by decide) rfl).1
      ⟨rfl, rfl, rfl, rfl⟩).1 exampleFight rfl,
    ((c5_one_indexed_selection plainClassifier idAnon eqMatch collectOne
        (argsFightIdx 2) ["S", "x", "E"] 2 (by decide) rfl).1
      ⟨rfl, rfl, rfl, rfl⟩).2 (by decide)⟩

/-- C9: a fight-index (resp. zone-index) selector of value 0 passes the
exactly-one-selector check, but the truthiness test skips index 0, every
other selector branch is absent, and the run falls through to the generic
`Internal error` branch instead of the missing-fight (missing-zone)
diagnostic. -/
theorem c9_index_zero_internal_error (c : Classifier) {σ : Type} (A : AnonOps σ)
    (reOf : String → String → Bool)
    (collect : List String → List Fight × List Zone)
    (a : Args) (input : List String) (hfile : a.file.isSome = true) :
    ((a.search_fights = some 0 ∧ a.search_zones = none ∧
        a.fight_regex = none ∧ a.zone_regex = none) →
      numExclusiveArgs a = 1 ∧
        runMain c A reOf collect a input = .internalError) ∧
    ((a.search_fights = none ∧ a.search_zones = some 0 ∧
        a.fight_regex = none ∧ a.zone_regex = none) →
      numExclusiveArgs a = 1 ∧
        runMain c A reOf collect a input = .internalError) := by
  have hnf : a.file.isNone = false := by
    cases hf : a.file with
    | none => rw [hf] at hfile; simp at hfile
    | some v => rfl
  constructor
  · rintro ⟨h1, h2, h3, h4⟩
    have hcount : numExclusiveArgs a = 1 := by
      simp [numExclusiveArgs, h1, h2, h3, h4]
    refine ⟨hcount, ?_⟩
    simp [runMain, hnf, hcount, dispatch, h1, h2, h3, h4, truthyInt]
  · rintro ⟨h1, h2, h3, h4⟩
    have hcount : numExclusiveArgs a = 1 := by
      simp [numExclusiveArgs, h1, h2, h3, h4]
    refine ⟨hcount, ?_⟩
    simp [runMain, hnf, hcount, dispatch, h1, h2, h3, h4, truthyInt]

/-- Witness for C9: a concrete run with `-lf 0` (resp. `-lz 0`) on a one-fight
log ends at `Internal error`. -/
theorem c9_index_zero_internal_error_witness :
    (numExclusiveArgs (argsFightIdx 0) = 1 ∧
      runMain plainClassifier idAnon eqMatch collectOne (argsFightIdx 0)
        ["S", "x", "E"] = .internalError) ∧
    (numExclusiveArgs (argsZoneIdx 0) = 1 ∧
      runMain plainClassifier idAnon eqMatch collectOne (argsZoneIdx 0)
        ["S", "x", "E"] = .internalError) :=
  ⟨(c9_index_zero_internal_error plainClassifier idAnon eqMatch collectOne
        (argsFightIdx 0) ["S", "x", "E"] rfl).1 ⟨rfl, rfl, rfl, rfl⟩,
    (c9_index_zero_internal_error plainClassifier idAnon eqMatch collectOne
        (argsZoneIdx 0) ["S", "x", "E"] rfl).2 ⟨rfl, rfl, rfl, rfl⟩⟩

end SplitLog
